import Mathlib

/-!
Shallow embedding of the account-management HTTP service.

The primary source is the in-memory variant (src/index.js); the file-backed
variant (src/unnamed/part_000) has identical handler logic except that its
auth function does not call ensureTestUser and its update step writes
`nickname === "" ? targetId : nickname`, which agrees with the in-memory
variant's `nickname || targetId` on strings.

Modelling conventions:
- A user record is a structure of four strings, mirroring the JS objects.
- The Store is the `users` array, passed explicitly; each handler returns
  the response together with the store it leaves behind.
- The Basic-Auth header is represented by its decoded base64 payload
  (base64 encoding is treated as transparent); a missing or non-Basic
  header is `AuthHeader.noHeader`.
- JS truthiness on the string-valued body fields is `some s` with `s`
  non-empty; `none` models an absent (undefined) field.
- JS `decoded.split(":")` with array destructuring `[name, pass]` takes
  the segment before the first colon and the segment between the first
  and second colon (`pass` is undefined when there is no colon); this is
  `fallbackSplit` below.
-/

structure User where
  user_id : String
  password : String
  nickname : String
  comment : String
deriving Repr, DecidableEq

abbrev Store := List User

/-- The hardcoded record pushed by `ensureTestUser` in src/index.js lines 12-21. -/
def testUser : User :=
  ⟨"TaroYamada", "PASSwd4TY", "TaroYamada", ""⟩

/-- src/index.js lines 12-21: append the test record when no record with
user_id "TaroYamada" is present. -/
def ensureTestUser (users : Store) : Store :=
  if users.any (fun u => u.user_id == "TaroYamada") then users
  else users ++ [testUser]

/-- Credentials as produced by getAuthCredentials; `pass` is an Option since
the JS fallback destructuring can leave it undefined. -/
structure Credentials where
  name : String
  pass : Option String
deriving Repr, DecidableEq

/-- A request's Authorization header, represented by the decoded base64
payload of the Basic scheme. -/
inductive AuthHeader where
  | noHeader : AuthHeader
  | basic (payload : String) : AuthHeader
deriving Repr, DecidableEq

/-- Split a character list at the first colon: the part before it and the
part after it, or `none` when there is no colon. -/
def breakAtColon : List Char → Option (List Char × List Char)
  | [] => none
  | c :: cs =>
    if c = ':' then some ([], cs)
    else
      match breakAtColon cs with
      | none => none
      | some p => some (c :: p.1, p.2)

/-- Modelled from the spec: the external basic-auth dependency (imported by
src/index.js line 2, not part of this repository's sources) "decode the
base64 payload, split on the first `:` into name and password candidate";
it fails when the decoded payload contains no colon. -/
def splitFirstColon (s : String) : Option (String × String) :=
  match breakAtColon s.data with
  | none => none
  | some p => some (⟨p.1⟩, ⟨p.2⟩)

/-- src/index.js line 31: `const [name, pass] = decoded.split(":")` — the
name is the segment before the first colon, the pass is the segment between
the first and the second colon (undefined when the payload has no colon). -/
def fallbackSplit (s : String) : String × Option String :=
  match breakAtColon s.data with
  | none => (s, none)
  | some p =>
    match breakAtColon p.2 with
    | none => (⟨p.1⟩, some ⟨p.2⟩)
    | some q => (⟨p.1⟩, some ⟨q.1⟩)

/-- src/index.js lines 24-36: try the basic-auth library first, then the
manual fallback on the same Basic header. -/
def getAuthCredentials (hdr : AuthHeader) : Option Credentials :=
  match hdr with
  | .noHeader => none
  | .basic payload =>
    match splitFirstColon payload with
    | some p => some ⟨p.1, some p.2⟩
    | none =>
      let f := fallbackSplit payload
      some ⟨f.1, f.2⟩

/-- src/index.js lines 39-47: run ensureTestUser, extract credentials, and
look up a record matching both user_id and password. Returns the resolved
user (or none) together with the store after the call. -/
def auth (users : Store) (hdr : AuthHeader) : Option User × Store :=
  let users1 := ensureTestUser users
  match getAuthCredentials hdr with
  | none => (none, users1)
  | some c =>
    (users1.find? (fun u => u.user_id == c.name && c.pass == some u.password), users1)

/-- src/unnamed/part_000 lines 38-46: the file-backed variant's auth; it
only uses the basic-auth library and never writes the store. -/
def authFileBacked (users : Store) (hdr : AuthHeader) : Option User :=
  match hdr with
  | .noHeader => none
  | .basic payload =>
    match splitFirstColon payload with
    | none => none
    | some p =>
      users.find? (fun u => u.user_id == p.1 && some p.2 == some u.password)

/-- The `user` object of a response body; `comment` is an Option because the
get-profile handler omits the key when the stored comment is empty. -/
structure UserJson where
  user_id : String
  nickname : String
  comment : Option String
deriving Repr, DecidableEq

/-- An HTTP response: status code, message, optional cause, optional user
payload. -/
structure Response where
  status : Nat
  message : String
  cause : Option String
  user : Option UserJson
deriving Repr, DecidableEq

/-- JS truthiness of an optional string field: present and non-empty. -/
def truthy : Option String → Bool
  | none => false
  | some s => s != ""

/-- Body of POST /signup. -/
structure SignupBody where
  user_id : Option String
  password : Option String
deriving Repr, DecidableEq

/-- Body of PATCH /users/:user_id, in the order of the JS destructuring. -/
structure PatchBody where
  nickname : Option String
  comment : Option String
  user_id : Option String
  password : Option String
deriving Repr, DecidableEq

/-- The regex `^[A-Za-z0-9]+$` of src/index.js line 74. -/
def matchesIdPattern (s : String) : Bool :=
  s != "" && s.data.all (fun c =>
    ( 'A' ≤ c && c ≤ 'Z') || ( 'a' ≤ c && c ≤ 'z') || ( '0' ≤ c && c ≤ '9'))

/-- The regex `^[\x21-\x7E]+$` of src/index.js line 75. -/
def matchesPwPattern (s : String) : Bool :=
  s != "" && s.data.all (fun c => 0x21 ≤ c.toNat && c.toNat ≤ 0x7E)

/-- src/index.js lines 50-99: the POST /signup handler. -/
def signup (users : Store) (body : SignupBody) : Response × Store :=
  if !truthy body.user_id || !truthy body.password then
    (⟨400, "Account creation failed", some "Required user_id and password", none⟩, users)
  else
    let uid := body.user_id.getD ""
    let pw := body.password.getD ""
    if uid.length < 6 || uid.length > 20 || pw.length < 8 || pw.length > 20 then
      (⟨400, "Account creation failed", some "Input Length is incorrect", none⟩, users)
    else if !matchesIdPattern uid || !matchesPwPattern pw then
      (⟨400, "Account creation failed", some "Incorrect character pattern", none⟩, users)
    else if users.any (fun u => u.user_id == uid) then
      (⟨400, "Account creation failed", some "Already same user_id is used", none⟩, users)
    else
      (⟨200, "Account successfully created", none, some ⟨uid, uid, none⟩⟩,
        users ++ [⟨uid, pw, uid, ""⟩])

/-- src/index.js lines 102-126: the GET /users/:user_id handler. The comment
key is included only when the stored comment is truthy (non-empty). -/
def getUser (users : Store) (targetId : String) (hdr : AuthHeader) : Response × Store :=
  let res := auth users hdr
  match res.1 with
  | none => (⟨401, "Authentication failed", none, none⟩, res.2)
  | some _ =>
    match res.2.find? (fun u => u.user_id == targetId) with
    | none => (⟨404, "No user found", none, none⟩, res.2)
    | some user =>
      (⟨200, "User details by user_id", none,
        some ⟨user.user_id, user.nickname,
          if user.comment = "" then none else some user.comment⟩⟩, res.2)

/-- Replace the first record with the given user_id by applying `f` to it,
mirroring the in-place mutation of the object found by `users.find`. -/
def updateFirst (users : Store) (targetId : String) (f : User → User) : Store :=
  match users with
  | [] => []
  | u :: rest =>
    if u.user_id == targetId then f u :: rest
    else u :: updateFirst rest targetId f

/-- src/index.js lines 129-186: the PATCH /users/:user_id handler. -/
def patchUser (users : Store) (targetId : String) (hdr : AuthHeader)
    (body : PatchBody) : Response × Store :=
  let res := auth users hdr
  match res.1 with
  | none => (⟨401, "Authentication failed", none, none⟩, res.2)
  | some authed =>
    if authed.user_id ≠ targetId then
      (⟨403, "No permission for update", none, none⟩, res.2)
    else
      match res.2.find? (fun u => u.user_id == targetId) with
      | none => (⟨404, "No user found", none, none⟩, res.2)
      | some user =>
        if truthy body.user_id || truthy body.password then
          (⟨400, "User updation failed", some "Not updatable user_id and password", none⟩, res.2)
        else if body.nickname.isNone && body.comment.isNone then
          (⟨400, "User updation failed", some "Required nickname or comment", none⟩, res.2)
        else if (truthy body.nickname && (body.nickname.getD "").length > 30)
            || (truthy body.comment && (body.comment.getD "").length > 100) then
          (⟨400, "User updation failed",
            some "String length limit exceeded or containing invalid characters", none⟩, res.2)
        else
          let newNick :=
            match body.nickname with
            | none => user.nickname
            | some n => if n = "" then targetId else n
          let newComment :=
            match body.comment with
            | none => user.comment
            | some c => c
          (⟨200, "User successfully updated", none,
            some ⟨user.user_id, newNick, some newComment⟩⟩,
            updateFirst res.2 targetId (fun u => ⟨u.user_id, u.password, newNick, newComment⟩))

/-- src/index.js lines 189-196: the POST /close handler; removes every
record whose user_id equals the authenticated user's. -/
def closeUser (users : Store) (hdr : AuthHeader) : Response × Store :=
  let res := auth users hdr
  match res.1 with
  | none => (⟨401, "Authentication failed", none, none⟩, res.2)
  | some authed =>
    (⟨200, "Account and user successfully removed", none, none⟩,
      res.2.filter (fun u => u.user_id != authed.user_id))

example :
    (auth [] (.basic "TaroYamada:PASSwd4TY")).1 = some testUser := by decide

example :
    (getUser [testUser] "TaroYamada" (.basic "TaroYamada:PASSwd4TY")).1.status = 200 := by
  decide

/-! ## Helper lemmas -/

lemma auth_snd (users : Store) (hdr : AuthHeader) :
    (auth users hdr).2 = ensureTestUser users := by
  unfold auth
  cases getAuthCredentials hdr <;> simp

lemma auth_some (users : Store) (hdr : AuthHeader) (au : User)
    (h : (auth users hdr).1 = some au) :
    ∃ c, getAuthCredentials hdr = some c ∧
      (ensureTestUser users).find?
        (fun u => u.user_id == c.name && c.pass == some u.password) = some au := by
  unfold auth at h
  cases hc : getAuthCredentials hdr with
  | none => simp [hc] at h
  | some c =>
    simp only [hc] at h
    exact ⟨c, rfl, h⟩

lemma auth_some_props (users : Store) (hdr : AuthHeader) (au : User)
    (h : (auth users hdr).1 = some au) :
    au ∈ ensureTestUser users ∧
      ∃ c, getAuthCredentials hdr = some c ∧
        c.name = au.user_id ∧ c.pass = some au.password := by
  obtain ⟨c, hc, hf⟩ := auth_some users hdr au h
  have hmem := List.mem_of_find?_eq_some hf
  have hp := List.find?_some hf
  simp only [Bool.and_eq_true, beq_iff_eq] at hp
  exact ⟨hmem, c, hc, hp.1.symm, hp.2⟩

lemma mem_ensureTestUser (users : Store) (u : User)
    (h : u ∈ ensureTestUser users) : u ∈ users ∨ u = testUser := by
  unfold ensureTestUser at h
  split at h
  · exact Or.inl h
  · rcases List.mem_append.mp h with h1 | h1
    · exact Or.inl h1
    · exact Or.inr (List.mem_singleton.mp h1)

lemma mem_of_mem_ensureTestUser (users : Store) (u : User)
    (h : u ∈ users) : u ∈ ensureTestUser users := by
  unfold ensureTestUser
  split
  · exact h
  · exact List.mem_append.mpr (Or.inl h)

lemma breakAtColon_first (pre post : List Char) (h : ':' ∉ pre) :
    breakAtColon (pre ++ ':' :: post) = some (pre, post) := by
  induction pre with
  | nil => simp [breakAtColon]
  | cons c cs ih =>
    have hc : ¬ c = ':' := by
      intro hn
      exact h (by simp [hn])
    have hcs : ':' ∉ cs := fun hm => h (List.mem_cons_of_mem _ hm)
    simp only [List.cons_append, breakAtColon, if_neg hc, List.append_eq, ih hcs]

/-! ## C4 -/

/-- C4: for every well-formed Basic header (decoded payload of the form
name:password with a colon-free name), getAuthCredentials splits the decoded
string at the FIRST colon, so a password containing colons is preserved
intact as everything after the first colon. -/
theorem c4_split_on_first_colon (name pass : String) (h : ':' ∉ name.data) :
    getAuthCredentials (AuthHeader.basic (name ++ ":" ++ pass))
      = some ⟨name, some pass⟩ := by
  have hb : breakAtColon (name ++ ":" ++ pass).data = some (name.data, pass.data) := by
    have hdata : (name ++ ":" ++ pass).data = name.data ++ ':' :: pass.data := by
      simp
    rw [hdata]
    exact breakAtColon_first _ _ h
  simp only [getAuthCredentials, splitFirstColon, hb]

/-- Witness for C4 at a concrete input whose password contains a colon. -/
theorem c4_witness :
    ':' ∉ "user1".data ∧
      getAuthCredentials (AuthHeader.basic ("user1" ++ ":" ++ "pa:ss"))
        = some ⟨"user1", some "pa:ss"⟩ :=
  ⟨by decide, c4_split_on_first_colon "user1" "pa:ss" (by decide)⟩

/-! ## C2 -/

/-- C2 counterexample: on the empty store, running auth (with no credentials
at all) appends the hardcoded test record, so authentication is not free of
side effects on the Store. -/
theorem c2_counterexample :
    (auth [] AuthHeader.noHeader).2 = [testUser] ∧ testUser ∉ ([] : Store) := by
  constructor
  · decide
  · simp

/-- C2 (amended): auth's only store effect is ensureTestUser's re-insertion
of the test record; whenever a record with user_id "TaroYamada" is already
present, auth leaves the Store exactly as it was. (The file-backed variant's
auth is unconditionally read-only: it returns no store at all.) -/
theorem c2_amended (users : Store) (hdr : AuthHeader)
    (h : users.any (fun u => u.user_id == "TaroYamada") = true) :
    (auth users hdr).2 = users := by
  rw [auth_snd]
  unfold ensureTestUser
  simp [h]

/-- Witness for C2 (amended). -/
theorem c2_witness :
    ([testUser].any (fun u => u.user_id == "TaroYamada") = true) ∧
      (auth [testUser] AuthHeader.noHeader).2 = [testUser] :=
  ⟨by decide, c2_amended [testUser] AuthHeader.noHeader (by decide)⟩

/-! ## C10 -/

/-- C10 counterexample: from the empty store, signing up a user "TaroYamada"
with a password different from "PASSwd4TY" succeeds (signup never runs
ensureTestUser), and afterwards the fixed credentials
("TaroYamada", "PASSwd4TY") do NOT authenticate: the record with user_id
"TaroYamada" is already present, so ensureTestUser re-inserts nothing and
the password comparison fails. -/
theorem c10_counterexample :
    ((signup [] ⟨some "TaroYamada", some "Wrongpass1"⟩).1.status = 200) ∧
    ((signup [] ⟨some "TaroYamada", some "Wrongpass1"⟩).2
        = [⟨"TaroYamada", "Wrongpass1", "TaroYamada", ""⟩]) ∧
    ((auth [⟨"TaroYamada", "Wrongpass1", "TaroYamada", ""⟩]
        (AuthHeader.basic "TaroYamada:PASSwd4TY")).1 = none) := by
  refine ⟨by decide, by decide, by decide⟩

/-- C10 (amended): every authentication attempt first ensures a record with
user_id "TaroYamada" is present (re-inserting the hardcoded one when
absent), and the fixed credentials ("TaroYamada", "PASSwd4TY") authenticate
successfully whenever every stored "TaroYamada" record carries the password
"PASSwd4TY" — in particular on any store without a "TaroYamada" record,
such as the store left by closing that account. -/
theorem c10_amended (users : Store)
    (h : ∀ u ∈ users, u.user_id = "TaroYamada" → u.password = "PASSwd4TY") :
    ((ensureTestUser users).any (fun u => u.user_id == "TaroYamada") = true) ∧
    ((auth users (AuthHeader.basic "TaroYamada:PASSwd4TY")).1.map
        (fun u => (u.user_id, u.password))) = some ("TaroYamada", "PASSwd4TY") := by
  have hpresent :
      (ensureTestUser users).any (fun u => u.user_id == "TaroYamada") = true := by
    unfold ensureTestUser
    split
    · assumption
    · simp [testUser]
  refine ⟨hpresent, ?_⟩
  have hc : getAuthCredentials (AuthHeader.basic "TaroYamada:PASSwd4TY")
      = some ⟨"TaroYamada", some "PASSwd4TY"⟩ := by decide
  unfold auth
  simp only [hc]
  have hex : ∃ u, u ∈ ensureTestUser users ∧
      (u.user_id == "TaroYamada"
        && (some "PASSwd4TY" == some u.password : Bool)) = true := by
    rcases List.any_eq_true.mp hpresent with ⟨u0, hu0, hid0⟩
    refine ⟨u0, hu0, ?_⟩
    have hid : u0.user_id = "TaroYamada" := by simpa using hid0
    rcases mem_ensureTestUser users u0 hu0 with hin | heq
    · have hpw := h u0 hin hid
      simp [hid, hpw]
    · subst heq
      decide
  have hsome : ((ensureTestUser users).find?
      (fun u => u.user_id == "TaroYamada"
        && (some "PASSwd4TY" == some u.password : Bool))).isSome :=
    List.find?_isSome.mpr hex
  rcases Option.isSome_iff_exists.mp hsome with ⟨u, hu⟩
  have hp := List.find?_some hu
  simp only [Bool.and_eq_true, beq_iff_eq] at hp
  have hpw : u.password = "PASSwd4TY" := (Option.some.inj hp.2).symm
  rw [hu]
  simp [hp.1, hpw]

/-- Witness for C10 (amended), on the empty store. -/
theorem c10_witness :
    ((ensureTestUser []).any (fun u => u.user_id == "TaroYamada") = true) ∧
    ((auth [] (AuthHeader.basic "TaroYamada:PASSwd4TY")).1.map
        (fun u => (u.user_id, u.password))) = some ("TaroYamada", "PASSwd4TY") :=
  c10_amended [] (by decide)

/-! ## C1 -/

/-- C1 counterexample: the user "TaroYamada" (fixed test credentials) closes
the account successfully and the record is removed, yet the very next
protected request with the same credentials is answered 200, because auth
re-inserts the hardcoded record before looking the credentials up. -/
theorem c1_counterexample :
    ((closeUser [testUser] (AuthHeader.basic "TaroYamada:PASSwd4TY")).1.status = 200) ∧
    ((closeUser [testUser] (AuthHeader.basic "TaroYamada:PASSwd4TY")).2 = []) ∧
    ((getUser [] "TaroYamada" (AuthHeader.basic "TaroYamada:PASSwd4TY")).1.status = 200) := by
  refine ⟨by decide, by decide, by decide⟩

/-- C1 (amended): after a successful POST /close, any subsequent request to
a protected endpoint (GET /users/:id, PATCH /users/:id, POST /close)
carrying the same now-deleted credentials is rejected 401 "Authentication
failed" — unless those credentials are the hardcoded test pair
("TaroYamada", "PASSwd4TY"), which ensureTestUser re-inserts on every
authentication. -/
theorem c1_amended (users : Store) (hdr : AuthHeader) (au : User) (tid : String)
    (body : PatchBody)
    (h1 : (auth users hdr).1 = some au)
    (h2 : ¬ (au.user_id = "TaroYamada" ∧ au.password = "PASSwd4TY")) :
    ((closeUser users hdr).1.status = 200) ∧
    ((getUser (closeUser users hdr).2 tid hdr).1.status = 401) ∧
    ((getUser (closeUser users hdr).2 tid hdr).1.message = "Authentication failed") ∧
    ((patchUser (closeUser users hdr).2 tid hdr body).1.status = 401) ∧
    ((closeUser (closeUser users hdr).2 hdr).1.status = 401) := by
  obtain ⟨hmem, c, hc, hcn, hcp⟩ := auth_some_props users hdr au h1
  have hs2 : (closeUser users hdr).2
      = (auth users hdr).2.filter (fun u => u.user_id != au.user_id) := by
    simp only [closeUser, h1]
  have hnone :
      (auth ((auth users hdr).2.filter (fun u => u.user_id != au.user_id)) hdr).1
        = none := by
    unfold auth
    simp only [hc]
    apply List.find?_eq_none.mpr
    intro u hu hp
    simp only [Bool.and_eq_true, beq_iff_eq] at hp
    have hid : u.user_id = au.user_id := by rw [hp.1, ← hcn]
    have hpw : u.password = au.password := by
      have h3 := hp.2
      rw [hcp] at h3
      exact (Option.some.inj h3).symm
    rcases mem_ensureTestUser _ u hu with hin | heq
    · have hne := (List.mem_filter.mp hin).2
      simp only [bne_iff_ne, ne_eq] at hne
      exact hne hid
    · subst heq
      exact h2 ⟨hid.symm, hpw.symm⟩
  refine ⟨?_, ?_, ?_, ?_, ?_⟩
  · simp only [closeUser, h1]
  · rw [hs2]
    simp only [getUser, hnone]
  · rw [hs2]
    simp only [getUser, hnone]
  · rw [hs2]
    simp only [patchUser, hnone]
  · rw [hs2]
    simp only [closeUser, hnone]

/-- Witness for C1 (amended): a signed-up user other than the test user
closes the account; the same credentials are then rejected everywhere. -/
theorem c1_witness :
    ((closeUser [⟨"AliceSmith", "Secretpw1", "AliceSmith", ""⟩]
        (AuthHeader.basic "AliceSmith:Secretpw1")).1.status = 200) ∧
    ((getUser (closeUser [⟨"AliceSmith", "Secretpw1", "AliceSmith", ""⟩]
        (AuthHeader.basic "AliceSmith:Secretpw1")).2 "AliceSmith"
        (AuthHeader.basic "AliceSmith:Secretpw1")).1.status = 401) ∧
    ((getUser (closeUser [⟨"AliceSmith", "Secretpw1", "AliceSmith", ""⟩]
        (AuthHeader.basic "AliceSmith:Secretpw1")).2 "AliceSmith"
        (AuthHeader.basic "AliceSmith:Secretpw1")).1.message = "Authentication failed") ∧
    ((patchUser (closeUser [⟨"AliceSmith", "Secretpw1", "AliceSmith", ""⟩]
        (AuthHeader.basic "AliceSmith:Secretpw1")).2 "AliceSmith"
        (AuthHeader.basic "AliceSmith:Secretpw1") ⟨none, none, none, none⟩).1.status = 401) ∧
    ((closeUser (closeUser [⟨"AliceSmith", "Secretpw1", "AliceSmith", ""⟩]
        (AuthHeader.basic "AliceSmith:Secretpw1")).2
        (AuthHeader.basic "AliceSmith:Secretpw1")).1.status = 401) :=
  c1_amended [⟨"AliceSmith", "Secretpw1", "AliceSmith", ""⟩]
    (AuthHeader.basic "AliceSmith:Secretpw1")
    ⟨"AliceSmith", "Secretpw1", "AliceSmith", ""⟩ "AliceSmith"
    ⟨none, none, none, none⟩ (by decide) (by decide)

/-! ## C7 -/

/-- C7: a PATCH by an authenticated user whose user_id differs from the
path's target id is answered 403 "No permission for update", for every store
and every body (the ownership check precedes the lookup, the immutable-field
check and the length checks), and the store is left as authentication left
it. -/
theorem c7_forbidden (users : Store) (tid : String) (hdr : AuthHeader)
    (body : PatchBody) (au : User)
    (h1 : (auth users hdr).1 = some au)
    (h2 : au.user_id ≠ tid) :
    ((patchUser users tid hdr body).1.status = 403) ∧
    ((patchUser users tid hdr body).1.message = "No permission for update") ∧
    ((patchUser users tid hdr body).2 = (auth users hdr).2) := by
  have hres : patchUser users tid hdr body
      = (⟨403, "No permission for update", none, none⟩, (auth users hdr).2) := by
    simp only [patchUser, h1]
    rw [if_pos h2]
  rw [hres]
  exact ⟨rfl, rfl, rfl⟩

/-- Witness for C7: the test user targets a different user_id with a valid
body; the target does not even exist and the body is fine, yet 403. -/
theorem c7_witness :
    ((patchUser [] "other1" (AuthHeader.basic "TaroYamada:PASSwd4TY")
        ⟨some "nick", none, none, none⟩).1.status = 403) ∧
    ((patchUser [] "other1" (AuthHeader.basic "TaroYamada:PASSwd4TY")
        ⟨some "nick", none, none, none⟩).1.message = "No permission for update") ∧
    ((patchUser [] "other1" (AuthHeader.basic "TaroYamada:PASSwd4TY")
        ⟨some "nick", none, none, none⟩).2
      = (auth [] (AuthHeader.basic "TaroYamada:PASSwd4TY")).2) :=
  c7_forbidden [] "other1" (AuthHeader.basic "TaroYamada:PASSwd4TY")
    ⟨some "nick", none, none, none⟩ testUser (by decide) (by decide)

/-! ## C9 -/

/-- C9: the 404 "No user found" branch of the PATCH handler is unreachable —
for every store, target, header and body, the PATCH response never has
status 404: an authenticated user was found in the very store the handler
searches, and the ownership check forces the target id to be that user's. -/
theorem c9_patch_404_unreachable (users : Store) (tid : String)
    (hdr : AuthHeader) (body : PatchBody) :
    ((patchUser users tid hdr body).1.status == 404) = false := by
  cases h1 : (auth users hdr).1 with
  | none =>
    have hres : patchUser users tid hdr body
        = (⟨401, "Authentication failed", none, none⟩, (auth users hdr).2) := by
      simp only [patchUser, h1]
    rw [hres]
    rfl
  | some au =>
    by_cases h2 : au.user_id = tid
    · have hmem2 : au ∈ (auth users hdr).2 := by
        rw [auth_snd]
        exact (auth_some_props users hdr au h1).1
      have hsome : ((auth users hdr).2.find? (fun u => u.user_id == tid)).isSome :=
        List.find?_isSome.mpr ⟨au, hmem2, by simp [h2]⟩
      rcases Option.isSome_iff_exists.mp hsome with ⟨user, huser⟩
      have hnot : ¬ au.user_id ≠ tid := fun hne => hne h2
      simp only [patchUser, h1, huser]
      rw [if_neg hnot]
      split
      · rfl
      · split
        · rfl
        · split
          · rfl
          · rfl
    · simp only [patchUser, h1]
      rw [if_pos h2]
      rfl

/-- Witness for C9 at a concrete input. -/
theorem c9_witness :
    ((patchUser [] "SomeTarget1" AuthHeader.noHeader
        ⟨none, none, none, none⟩).1.status == 404) = false :=
  c9_patch_404_unreachable [] "SomeTarget1" AuthHeader.noHeader
    ⟨none, none, none, none⟩

/-! ## C3 -/

/-- C3 counterexample: a body whose user_id field is PRESENT but the empty
string (falsy in JS) together with valid nickname/comment values is NOT
rejected — the update succeeds with 200, no cause, and the stored record is
changed. The truthiness check `if (user_id || password)` does not fire on
present-but-empty fields, so the claim as stated (any present user_id or
password field is rejected) is false. -/
theorem c3_counterexample :
    ((patchUser [testUser] "TaroYamada" (AuthHeader.basic "TaroYamada:PASSwd4TY")
        ⟨some "newnick", some "hi", some "", none⟩).1.status = 200) ∧
    ((patchUser [testUser] "TaroYamada" (AuthHeader.basic "TaroYamada:PASSwd4TY")
        ⟨some "newnick", some "hi", some "", none⟩).1.cause = none) ∧
    ((patchUser [testUser] "TaroYamada" (AuthHeader.basic "TaroYamada:PASSwd4TY")
        ⟨some "newnick", some "hi", some "", none⟩).2
      = [⟨"TaroYamada", "PASSwd4TY", "newnick", "hi"⟩]) := by
  refine ⟨by decide, by decide, by decide⟩

/-- C3 (amended): a PATCH that passed authentication, the ownership check
and the target lookup, whose body carries a TRUTHY (present and non-empty)
user_id or password field, is rejected 400 with cause "Not updatable user_id
and password" even if valid nickname/comment values are also present, and
the store is left exactly as authentication left it. -/
theorem c3_immutable_rejected (users : Store) (tid : String) (hdr : AuthHeader)
    (body : PatchBody) (au : User)
    (h1 : (auth users hdr).1 = some au)
    (h2 : au.user_id = tid)
    (h3 : (truthy body.user_id || truthy body.password) = true) :
    ((patchUser users tid hdr body).1.status = 400) ∧
    ((patchUser users tid hdr body).1.message = "User updation failed") ∧
    ((patchUser users tid hdr body).1.cause
      = some "Not updatable user_id and password") ∧
    ((patchUser users tid hdr body).2 = (auth users hdr).2) := by
  have hmem2 : au ∈ (auth users hdr).2 := by
    rw [auth_snd]
    exact (auth_some_props users hdr au h1).1
  have hsome : ((auth users hdr).2.find? (fun u => u.user_id == tid)).isSome :=
    List.find?_isSome.mpr ⟨au, hmem2, by simp [h2]⟩
  rcases Option.isSome_iff_exists.mp hsome with ⟨user, huser⟩
  have hnot : ¬ au.user_id ≠ tid := fun hne => hne h2
  have hres : patchUser users tid hdr body
      = (⟨400, "User updation failed", some "Not updatable user_id and password", none⟩,
          (auth users hdr).2) := by
    simp only [patchUser, h1, huser]
    rw [if_neg hnot, if_pos h3]
  rw [hres]
  exact ⟨rfl, rfl, rfl, rfl⟩

/-- Witness for C3 (amended): a truthy user_id in the body alongside a valid
nickname is rejected 400. -/
theorem c3_witness :
    ((patchUser [] "TaroYamada" (AuthHeader.basic "TaroYamada:PASSwd4TY")
        ⟨some "nick", none, some "Evil12", none⟩).1.status = 400) ∧
    ((patchUser [] "TaroYamada" (AuthHeader.basic "TaroYamada:PASSwd4TY")
        ⟨some "nick", none, some "Evil12", none⟩).1.message = "User updation failed") ∧
    ((patchUser [] "TaroYamada" (AuthHeader.basic "TaroYamada:PASSwd4TY")
        ⟨some "nick", none, some "Evil12", none⟩).1.cause
      = some "Not updatable user_id and password") ∧
    ((patchUser [] "TaroYamada" (AuthHeader.basic "TaroYamada:PASSwd4TY")
        ⟨some "nick", none, some "Evil12", none⟩).2
      = (auth [] (AuthHeader.basic "TaroYamada:PASSwd4TY")).2) :=
  c3_immutable_rejected [] "TaroYamada" (AuthHeader.basic "TaroYamada:PASSwd4TY")
    ⟨some "nick", none, some "Evil12", none⟩ testUser (by decide) (by decide) (by decide)

/-! ## C6 -/

/-- C6: every successful GET /users/:id answers 200 with a user payload that
always carries user_id and nickname, and carries the comment key exactly
when the stored comment is non-empty (the key is absent when the stored
comment is the empty string). -/
theorem c6_comment_key_iff_nonempty (users : Store) (tid : String)
    (hdr : AuthHeader) (au user : User)
    (h1 : (auth users hdr).1 = some au)
    (h2 : (auth users hdr).2.find? (fun u => u.user_id == tid) = some user) :
    ((getUser users tid hdr).1.status = 200) ∧
    ((getUser users tid hdr).1.user
      = some ⟨user.user_id, user.nickname,
          if user.comment = "" then none else some user.comment⟩) := by
  have hres : getUser users tid hdr
      = (⟨200, "User details by user_id", none,
          some ⟨user.user_id, user.nickname,
            if user.comment = "" then none else some user.comment⟩⟩,
          (auth users hdr).2) := by
    simp only [getUser, h1, h2]
  rw [hres]
  exact ⟨rfl, rfl⟩

/-- Witness for C6: with an empty stored comment the key is omitted, and
with a non-empty stored comment the key is present. -/
theorem c6_witness :
    (((getUser [testUser] "TaroYamada" (AuthHeader.basic "TaroYamada:PASSwd4TY")).1.status
        = 200) ∧
      ((getUser [testUser] "TaroYamada" (AuthHeader.basic "TaroYamada:PASSwd4TY")).1.user
        = some ⟨testUser.user_id, testUser.nickname,
            if testUser.comment = "" then none else some testUser.comment⟩)) ∧
    (((getUser [⟨"AliceSmith", "Secretpw1", "Ali", "hey"⟩] "AliceSmith"
        (AuthHeader.basic "AliceSmith:Secretpw1")).1.status = 200) ∧
      ((getUser [⟨"AliceSmith", "Secretpw1", "Ali", "hey"⟩] "AliceSmith"
        (AuthHeader.basic "AliceSmith:Secretpw1")).1.user
        = some ⟨"AliceSmith", "Ali",
            if ("hey" : String) = "" then none else some "hey"⟩)) :=
  ⟨c6_comment_key_iff_nonempty [testUser] "TaroYamada"
      (AuthHeader.basic "TaroYamada:PASSwd4TY") testUser testUser
      (by decide) (by decide),
    c6_comment_key_iff_nonempty [⟨"AliceSmith", "Secretpw1", "Ali", "hey"⟩]
      "AliceSmith" (AuthHeader.basic "AliceSmith:Secretpw1")
      ⟨"AliceSmith", "Secretpw1", "Ali", "hey"⟩
      ⟨"AliceSmith", "Secretpw1", "Ali", "hey"⟩ (by decide) (by decide)⟩

/-! ## C5 -/

/-- C5: a PATCH that reaches the apply step updates the target record by:
a present empty nickname resets the stored nickname to the target's user_id,
a present empty comment resets the stored comment to "", a present non-empty
value replaces the stored one, an absent field leaves the stored value
untouched; the 200 response carries the full updated user_id, nickname and
comment (the comment key always present). -/
theorem c5_apply_step (users : Store) (tid : String) (hdr : AuthHeader)
    (body : PatchBody) (au user : User)
    (h1 : (auth users hdr).1 = some au)
    (h2 : au.user_id = tid)
    (h3 : (auth users hdr).2.find? (fun u => u.user_id == tid) = some user)
    (h4 : (truthy body.user_id || truthy body.password) = false)
    (h5 : (body.nickname.isNone && body.comment.isNone) = false)
    (h6 : ((truthy body.nickname && decide ((body.nickname.getD "").length > 30))
        || (truthy body.comment && decide ((body.comment.getD "").length > 100))) = false) :
    ((patchUser users tid hdr body).1.status = 200) ∧
    ((patchUser users tid hdr body).1.user
      = some ⟨user.user_id,
          (match body.nickname with
            | none => user.nickname
            | some n => if n = "" then tid else n),
          some (match body.comment with
            | none => user.comment
            | some c => c)⟩) ∧
    ((patchUser users tid hdr body).2
      = updateFirst (auth users hdr).2 tid (fun u =>
          ⟨u.user_id, u.password,
            (match body.nickname with
              | none => user.nickname
              | some n => if n = "" then tid else n),
            (match body.comment with
              | none => user.comment
              | some c => c)⟩)) := by
  have hnot : ¬ au.user_id ≠ tid := fun hne => hne h2
  have hc4 : ¬ ((truthy body.user_id || truthy body.password) = true) := by
    simp [h4]
  have hc5 : ¬ ((body.nickname.isNone && body.comment.isNone) = true) := by
    simp only [h5]
    exact Bool.false_ne_true
  have hc6 : ¬ (((truthy body.nickname && decide ((body.nickname.getD "").length > 30))
      || (truthy body.comment && decide ((body.comment.getD "").length > 100))) = true) := by
    simp only [h6]
    exact Bool.false_ne_true
  have hres : patchUser users tid hdr body
      = (⟨200, "User successfully updated", none,
          some ⟨user.user_id,
            (match body.nickname with
              | none => user.nickname
              | some n => if n = "" then tid else n),
            some (match body.comment with
              | none => user.comment
              | some c => c)⟩⟩,
          updateFirst (auth users hdr).2 tid (fun u =>
            ⟨u.user_id, u.password,
              (match body.nickname with
                | none => user.nickname
                | some n => if n = "" then tid else n),
              (match body.comment with
                | none => user.comment
                | some c => c)⟩)) := by
    simp only [patchUser, h1, h3]
    rw [if_neg hnot, if_neg hc4, if_neg hc5, if_neg hc6]
  rw [hres]
  exact ⟨rfl, rfl, rfl⟩

/-- Witness for C5: an empty nickname in the body resets the stored nickname
to the target's user_id while the comment is replaced, and the response
carries the full updated record. -/
theorem c5_witness :
    ((patchUser [testUser] "TaroYamada" (AuthHeader.basic "TaroYamada:PASSwd4TY")
        ⟨some "", some "hello", none, none⟩).1.status = 200) ∧
    ((patchUser [testUser] "TaroYamada" (AuthHeader.basic "TaroYamada:PASSwd4TY")
        ⟨some "", some "hello", none, none⟩).1.user
      = some ⟨"TaroYamada", "TaroYamada", some "hello"⟩) ∧
    ((patchUser [testUser] "TaroYamada" (AuthHeader.basic "TaroYamada:PASSwd4TY")
        ⟨some "", some "hello", none, none⟩).2
      = [⟨"TaroYamada", "PASSwd4TY", "TaroYamada", "hello"⟩]) := by
  have h := c5_apply_step [testUser] "TaroYamada"
    (AuthHeader.basic "TaroYamada:PASSwd4TY")
    ⟨some "", some "hello", none, none⟩ testUser testUser
    (by decide) (by decide) (by decide) (by decide) (by decide) (by decide)
  exact ⟨h.1, by rw [h.2.1]; decide, by rw [h.2.2]; decide⟩

/-! ## C8 -/

/-- The stored-record invariant behind C8: no record has an empty user_id or
an empty nickname. -/
def storeInv (users : Store) : Prop :=
  ∀ u ∈ users, u.user_id ≠ "" ∧ u.nickname ≠ ""

instance storeInvDecidable (users : Store) : Decidable (storeInv users) :=
  inferInstanceAs (Decidable (∀ u ∈ users, u.user_id ≠ "" ∧ u.nickname ≠ ""))

lemma storeInv_ensureTestUser (users : Store) (h : storeInv users) :
    storeInv (ensureTestUser users) := by
  intro u hu
  rcases mem_ensureTestUser users u hu with hin | heq
  · exact h u hin
  · subst heq
    exact ⟨by decide, by decide⟩

lemma storeInv_auth (users : Store) (hdr : AuthHeader) (h : storeInv users) :
    storeInv (auth users hdr).2 := by
  rw [auth_snd]
  exact storeInv_ensureTestUser users h

lemma mem_updateFirst (users : Store) (tid : String) (f : User → User)
    (u : User) (h : u ∈ updateFirst users tid f) :
    u ∈ users ∨ ∃ v ∈ users, u = f v := by
  induction users with
  | nil => simp [updateFirst] at h
  | cons w ws ih =>
    simp only [updateFirst] at h
    by_cases hw : (w.user_id == tid) = true
    · rw [if_pos hw] at h
      rcases List.mem_cons.mp h with h1 | h1
      · exact Or.inr ⟨w, List.mem_cons_self w ws, h1⟩
      · exact Or.inl (List.mem_cons_of_mem _ h1)
    · rw [if_neg hw] at h
      rcases List.mem_cons.mp h with h1 | h1
      · subst h1
        exact Or.inl (List.mem_cons_self _ _)
      · rcases ih h1 with h2 | ⟨v, hv, he⟩
        · exact Or.inl (List.mem_cons_of_mem _ h2)
        · exact Or.inr ⟨v, List.mem_cons_of_mem _ hv, he⟩

lemma storeInv_signup (users : Store) (sb : SignupBody) (h : storeInv users) :
    storeInv (signup users sb).2 := by
  simp only [signup]
  split_ifs with h1 h2 h3 h4
  · exact h
  · exact h
  · exact h
  · exact h
  · intro u hu
    rcases List.mem_append.mp hu with hin | hin
    · exact h u hin
    · have he := List.mem_singleton.mp hin
      subst he
      have h2' : ¬ ((sb.user_id.getD "").length < 6) := by
        intro hlt
        exact h2 (by simp [hlt])
      constructor
      · intro he2
        have he3 : (sb.user_id.getD "") = "" := he2
        rw [he3] at h2'
        exact h2' (by decide)
      · intro he2
        have he3 : (sb.user_id.getD "") = "" := he2
        rw [he3] at h2'
        exact h2' (by decide)

lemma getUser_snd (users : Store) (tid : String) (hdr : AuthHeader) :
    (getUser users tid hdr).2 = (auth users hdr).2 := by
  cases h1 : (auth users hdr).1 with
  | none => simp only [getUser, h1]
  | some au =>
    cases h2 : (auth users hdr).2.find? (fun u => u.user_id == tid) with
    | none => simp only [getUser, h1, h2]
    | some user => simp only [getUser, h1, h2]

lemma storeInv_patch (users : Store) (tid : String) (hdr : AuthHeader)
    (body : PatchBody) (h : storeInv users) :
    storeInv (patchUser users tid hdr body).2 := by
  have hauth := storeInv_auth users hdr h
  cases h1 : (auth users hdr).1 with
  | none =>
    have hs : (patchUser users tid hdr body).2 = (auth users hdr).2 := by
      simp only [patchUser, h1]
    rw [hs]
    exact hauth
  | some au =>
    by_cases h2 : au.user_id ≠ tid
    · have hs : (patchUser users tid hdr body).2 = (auth users hdr).2 := by
        simp only [patchUser, h1]
        rw [if_pos h2]
      rw [hs]
      exact hauth
    · have h2' : au.user_id = tid := not_not.mp h2
      cases h3 : (auth users hdr).2.find? (fun u => u.user_id == tid) with
      | none =>
        have hs : (patchUser users tid hdr body).2 = (auth users hdr).2 := by
          simp only [patchUser, h1, h3]
          rw [if_neg h2]
        rw [hs]
        exact hauth
      | some user =>
        by_cases hc1 : (truthy body.user_id || truthy body.password) = true
        · have hs : (patchUser users tid hdr body).2 = (auth users hdr).2 := by
            simp only [patchUser, h1, h3]
            rw [if_neg h2, if_pos hc1]
          rw [hs]
          exact hauth
        · by_cases hc2 : (body.nickname.isNone && body.comment.isNone) = true
          · have hs : (patchUser users tid hdr body).2 = (auth users hdr).2 := by
              simp only [patchUser, h1, h3]
              rw [if_neg h2, if_neg hc1, if_pos hc2]
            rw [hs]
            exact hauth
          · by_cases hc3 : ((truthy body.nickname && decide ((body.nickname.getD "").length > 30))
                || (truthy body.comment && decide ((body.comment.getD "").length > 100))) = true
            · have hs : (patchUser users tid hdr body).2 = (auth users hdr).2 := by
                simp only [patchUser, h1, h3]
                rw [if_neg h2, if_neg hc1, if_neg hc2, if_pos hc3]
              rw [hs]
              exact hauth
            · have hupd : (patchUser users tid hdr body).2
                  = updateFirst (auth users hdr).2 tid (fun u =>
                      ⟨u.user_id, u.password,
                        (match body.nickname with
                          | none => user.nickname
                          | some n => if n = "" then tid else n),
                        (match body.comment with
                          | none => user.comment
                          | some c => c)⟩) := by
                simp only [patchUser, h1, h3]
                rw [if_neg h2, if_neg hc1, if_neg hc2, if_neg hc3]
              rw [hupd]
              have huser_mem : user ∈ (auth users hdr).2 :=
                List.mem_of_find?_eq_some h3
              have hau_mem : au ∈ (auth users hdr).2 := by
                rw [auth_snd]
                exact (auth_some_props users hdr au h1).1
              have htid : tid ≠ "" := by
                rw [← h2']
                exact (hauth au hau_mem).1
              have hNN : (match body.nickname with
                  | none => user.nickname
                  | some n => if n = "" then tid else n) ≠ "" := by
                cases body.nickname with
                | none => exact (hauth user huser_mem).2
                | some n =>
                  show (if n = "" then tid else n) ≠ ""
                  by_cases hne : n = ""
                  · rw [if_pos hne]
                    exact htid
                  · rw [if_neg hne]
                    exact hne
              intro u hu
              rcases mem_updateFirst _ _ _ u hu with hin | ⟨v, hv, he⟩
              · exact hauth u hin
              · subst he
                exact ⟨(hauth v hv).1, hNN⟩

lemma storeInv_close (users : Store) (hdr : AuthHeader) (h : storeInv users) :
    storeInv (closeUser users hdr).2 := by
  have hauth := storeInv_auth users hdr h
  cases h1 : (auth users hdr).1 with
  | none =>
    have hs : (closeUser users hdr).2 = (auth users hdr).2 := by
      simp only [closeUser, h1]
    rw [hs]
    exact hauth
  | some au =>
    have hs : (closeUser users hdr).2
        = (auth users hdr).2.filter (fun u => u.user_id != au.user_id) := by
      simp only [closeUser, h1]
    rw [hs]
    intro u hu
    exact hauth u (List.mem_filter.mp hu).1

/-- C8: every operation (signup, get profile, update, close) preserves the
invariant that no stored record has an empty nickname (together with the
supporting fact that no stored record has an empty user_id): signup stores
nickname = user_id after the length check (user_id length at least 6), and
update maps an empty nickname input back to the target's user_id. -/
theorem c8_nickname_never_empty (users : Store) (sb : SignupBody) (tid : String)
    (hdr : AuthHeader) (pb : PatchBody)
    (h : storeInv users) :
    storeInv (signup users sb).2 ∧ storeInv (getUser users tid hdr).2 ∧
    storeInv (patchUser users tid hdr pb).2 ∧ storeInv (closeUser users hdr).2 := by
  refine ⟨storeInv_signup users sb h, ?_, storeInv_patch users tid hdr pb h,
    storeInv_close users hdr h⟩
  rw [getUser_snd]
  exact storeInv_auth users hdr h

/-- Witness for C8, starting from the empty store (the initial state of the
in-memory variant). -/
theorem c8_witness :
    storeInv (signup [] ⟨some "AliceSmith", some "Secretpw1"⟩).2 ∧
    storeInv (getUser [] "TaroYamada" (AuthHeader.basic "TaroYamada:PASSwd4TY")).2 ∧
    storeInv (patchUser [] "TaroYamada" (AuthHeader.basic "TaroYamada:PASSwd4TY")
        ⟨some "", none, none, none⟩).2 ∧
    storeInv (closeUser [] (AuthHeader.basic "TaroYamada:PASSwd4TY")).2 :=
  c8_nickname_never_empty [] ⟨some "AliceSmith", some "Secretpw1"⟩ "TaroYamada"
    (AuthHeader.basic "TaroYamada:PASSwd4TY") ⟨some "", none, none, none⟩
    (by decide)
